import Mathlib

set_option autoImplicit false

/-!
Shallow embedding of the embedded-interpreter bootstrap and static-extension
loader: `_create_module`, `_exec_module` and `_check_module` from
`buck/prelude/python/tools/static_extension_utils.cpp`, and
`MaybeGetExitCode` plus the finder-hook block of `main` from
`buck/prelude/python/tools/embedded_main.cpp`.

Host-runtime objects are modelled as plain data: a module carries an
identity (`modId`, standing for the pointer value), an optional `__file__`
attribute and an optional definition; an init-function pointer is an
identity plus a description of what the function returns when invoked.
The interpreter state visible to this code is the `_Py_PackageContext`
slot, the extension cache consulted by `_PyImport_FindExtensionObject`,
the `sys.modules` dict, and the pending-exception slot.  Loader
operations additionally record a trace of observable events (registry
lookups and init-function invocations, the latter tagged with the
package-context value in force at the moment of the call).
-/

/-- A pending runtime exception, as set by `PyErr_SetString` and observed
by `PyErr_Occurred`.  `initError` stands for whatever exception a failing
init function left pending. -/
inductive PyErr where
  | importError (msg : String)
  | typeError (msg : String)
  | attributeError (attr : String)
  | initError
  deriving DecidableEq, Repr

/-- A module definition (`PyModuleDefStruct`).  `m_init` is the
`m_base.m_init` slot and stores the identity of an init-function pointer;
`execRaises` describes the behaviour of the definition's exec slots when
`PyModule_ExecDef` runs them (`some e`: execution raises `e`). -/
structure ModuleDef where
  defId : Nat
  m_init : Option Nat := none
  execRaises : Option PyErr := none
  deriving DecidableEq, Repr

/-- A module object.  `modId` models pointer identity, `file` the
`__file__` attribute, `moddef` the `md_def` slot read by
`PyModule_GetDef`. -/
structure PyModule where
  modId : Nat
  file : Option String := none
  moddef : Option ModuleDef := none
  deriving DecidableEq, Repr

/-- What invoking a registry entry's init function returns: null
(failure), a `PyModuleDefStruct` object, or a ready-made legacy module. -/
inductive InitBehavior where
  | fails
  | defn (d : ModuleDef)
  | legacy (m : PyModule)
  deriving DecidableEq, Repr

/-- A native init-function pointer from the `_static_extension_info`
table: a pointer identity plus the behaviour of the pointed-to
function. -/
structure InitFunc where
  funcId : Nat
  behavior : InitBehavior
  deriving DecidableEq, Repr

/-- First value bound to a given string key in an association list; the
registry and the interpreter's module tables are both read through
this. -/
def lookupStr {α : Type} (nm : String) : List (String × α) → Option α
  | [] => none
  | (k, v) :: rest => if k = nm then some v else lookupStr nm rest

/-- The slice of interpreter state this code reads and writes:
`_Py_PackageContext`, the extension cache behind
`_PyImport_FindExtensionObject` / `_PyImport_FixupExtensionObject`, the
`sys.modules` dict behind `PyImport_GetModuleDict`, and the pending
exception. -/
structure PyState where
  packageContext : Option String := none
  extensions : List (String × PyModule) := []
  modules : List (String × PyModule) := []
  err : Option PyErr := none
  deriving DecidableEq, Repr

/-- The import-spec argument of `create_module`: the `name` and `origin`
attributes (`none`: the attribute is absent and reading it raises). -/
structure ModuleSpec where
  name : Option String
  origin : Option String := none
  deriving DecidableEq, Repr

/-- Observable events recorded while a loader operation runs. -/
inductive Event where
  | initCalled (ctx : Option String)
  | registryLookup (nm : String)
  deriving DecidableEq, Repr

/-- `_PyImport_FindExtensionObject(name, name)`: the cached object for an
already-imported static extension, if any. -/
def findExtensionObject (st : PyState) (nm : String) : Option PyModule :=
  lookupStr nm st.extensions

/-- `_PyImport_FixupExtensionObject(mod, name, name, modules)`: record the
module in the extension cache and in `sys.modules`; returns `0` on
success.  The collaborator's failure branch (allocation errors inside the
runtime) is not modelled, but its result is still checked at the call
site as in the source. -/
def fixupExtensionObject (st : PyState) (nm : String) (m : PyModule) :
    Int × PyState :=
  (0, { st with extensions := (nm, m) :: st.extensions,
                modules := (nm, m) :: st.modules })

/-- `PyModule_FromDefAndSpec(def, spec)`: the host runtime materializes a
fresh module from a definition (assumed-correct collaborator, modelled
coarsely).  It registers the module nowhere. -/
def pyModuleFromDefAndSpec (d : ModuleDef) (_spec : ModuleSpec)
    (st : PyState) : Option PyModule × PyState :=
  (some { modId := d.defId, moddef := some d }, st)

/-- How `mod = initfunc()` behaves in `_create_module`: null with an
exception pending on failure, otherwise the returned object, which the
caller then classifies with `PyObject_TypeCheck(mod, PyModuleDef_Type)`. -/
inductive InitResult where
  | isDef (d : ModuleDef)
  | isMod (m : PyModule)
  deriving DecidableEq, Repr

/-- Invoke a registry entry's init-function pointer. -/
def callInit (f : InitFunc) (st : PyState) : Option InitResult × PyState :=
  match f.behavior with
  | .fails => (none, { st with err := some .initError })
  | .defn d => (some (.isDef d), st)
  | .legacy m => (some (.isMod m), st)

/-- `_create_module(self, spec)` from `static_extension_utils.cpp`,
translated branch for branch.  The result is the returned object (null on
failure), the interpreter state after the call, and the event trace. -/
def create_module (reg : List (String × InitFunc)) (spec : ModuleSpec)
    (st : PyState) : Option PyModule × PyState × List Event :=
  -- name = PyObject_GetAttrString(spec, "name"); if null, return null
  match spec.name with
  | none => (none, { st with err := some (.attributeError "name") }, [])
  | some nm =>
    -- mod = _PyImport_FindExtensionObject(name, name);
    -- if (mod || PyErr_Occurred()) return mod;
    match findExtensionObject st nm with
    | some m => (some m, st, [])
    | none =>
      match st.err with
      | some _ => (none, st, [])
      | none =>
        -- namestr = PyUnicode_AsUTF8(name); if (namestr.empty()) return null
        if nm = "" then (none, st, [])
        else
          -- initfunc = _static_extension_info.find(namestr)
          match lookupStr nm reg with
          | none =>
            (none, { st with err := some (.importError
                "Module unknown to static extension finder") },
             [.registryLookup nm])
          | some f =>
            -- oldcontext = _Py_PackageContext; _Py_PackageContext = namestr
            let oldcontext := st.packageContext
            let st1 : PyState := { st with packageContext := some nm }
            -- if (_Py_PackageContext == nullptr) { restore; return null }
            -- (namestr.c_str() is never null, so this branch never fires)
            if st1.packageContext = none then
              (none, { st1 with packageContext := oldcontext },
               [.registryLookup nm])
            else
              -- mod = initfunc(); _Py_PackageContext = oldcontext;
              -- (the restore is unconditional: it opens every arm below)
              match callInit f st1 with
              | (none, st2) =>
                -- init failed: the pending error propagates
                (none, { st2 with packageContext := oldcontext },
                 [.registryLookup nm, .initCalled st1.packageContext])
              | (some (.isDef d), st2) =>
                -- return PyModule_FromDefAndSpec((PyModuleDefStruct*)mod, spec)
                match pyModuleFromDefAndSpec d spec
                    { st2 with packageContext := oldcontext } with
                | (m, st4) =>
                  (m, st4, [.registryLookup nm, .initCalled st1.packageContext])
              | (some (.isMod m), st2) =>
                let st3 : PyState := { st2 with packageContext := oldcontext }
                -- def = PyModule_GetDef(mod); if null, return null
                match m.moddef with
                | none =>
                  (none, st3, [.registryLookup nm, .initCalled st1.packageContext])
                | some d =>
                  -- path = PyObject_GetAttrString(spec, "origin");
                  -- PyModule_AddObject(mod, "__file__", path): with a
                  -- null path it fails and PyErr_Clear() restores the
                  -- (empty) pending-error slot, so the net state change
                  -- is only the attribute when the origin exists
                  let m2 : PyModule :=
                    match spec.origin with
                    | none => m
                    | some p => { m with file := some p }
                  -- def->m_base.m_init = initfunc
                  let m3 : PyModule :=
                    { m2 with moddef := some { d with m_init := some f.funcId } }
                  -- _PyImport_FixupExtensionObject(mod, name, name, modules)
                  match fixupExtensionObject st3 nm m3 with
                  | (r, st5) =>
                    if r < 0 then
                      (none, st5, [.registryLookup nm, .initCalled st1.packageContext])
                    else
                      (some m3, st5, [.registryLookup nm, .initCalled st1.packageContext])

/-- The single argument of `_exec_module`: either something that fails
`PyModule_Check`, or a module object. -/
inductive ExecArg where
  | nonModule
  | module (m : PyModule)
  deriving DecidableEq, Repr

/-- `PyModule_ExecDef(module, def)`: run the definition's exec slots;
`-1` with an exception pending on failure, `0` otherwise. -/
def pyModuleExecDef (d : ModuleDef) (st : PyState) : Int × PyState :=
  match d.execRaises with
  | some e => (-1, { st with err := some e })
  | none => (0, st)

/-- `_exec_module(self, module)` from `static_extension_utils.cpp`.
`some ()` is `Py_RETURN_NONE` (a normal return); `none` would be an error
return.  The source ignores the result of `PyModule_ExecDef`
(`// TODO check res`) and always returns `None`. -/
def exec_module (arg : ExecArg) (st : PyState) : Option Unit × PyState :=
  match arg with
  | .nonModule => (some (), st)
  | .module m =>
    match m.moddef with
    | none => (some (), st)
    | some d =>
      match pyModuleExecDef d st with
      | (_res, st2) => (some (), st2)

/-- The single argument of `_check_module`: a unicode object or anything
else. -/
inductive PyValue where
  | str (s : String)
  | nonText
  deriving DecidableEq, Repr

/-- `_check_module(self, fullname)` from `static_extension_utils.cpp`:
a TypeError for non-text input, otherwise membership of the name in the
`_static_extension_info` table. -/
def check_module (reg : List (String × InitFunc)) (v : PyValue)
    (st : PyState) : Option Bool × PyState × List Event :=
  match v with
  | .nonText =>
    (none, { st with err := some (.typeError "Expected a unicode object") }, [])
  | .str s => (some (lookupStr s reg).isSome, st, [.registryLookup s])

/-- The kind of a `PyStatus` value: success, an error, or a request to
exit with a definite code (`PyStatus_Exception` is true for the latter
two, `PyStatus_IsExit` only for the last). -/
inductive StatusKind where
  | ok
  | error
  | exit
  deriving DecidableEq, Repr

/-- A `PyStatus` as produced by the configuration steps of `main`. -/
structure PyStatus where
  kind : StatusKind
  exitcode : Int := 0
  deriving DecidableEq, Repr

/-- The launcher's view of the `PyConfig`: whether `PyConfig_Clear` has
run on it. -/
structure ConfigState where
  cleared : Bool := false
  deriving DecidableEq, Repr

/-- `MaybeGetExitCode(&status, &config)` from `embedded_main.cpp`: for an
exit-carrying status the exit code is returned at once and the config is
left untouched; otherwise `PyConfig_Clear(config)` runs and
`Py_ExitStatusException(status)` terminates the process (the Bool
records that this fatal path ran; the `std::nullopt` return after it is
dead code because `Py_ExitStatusException` does not return). -/
def MaybeGetExitCode (s : PyStatus) (cfg : ConfigState) :
    Option Int × ConfigState × Bool :=
  if s.kind = .exit then (some s.exitcode, cfg, false)
  else (none, { cfg with cleared := true }, true)

/-- How one configuration step of `main` ends: the process returns an
exit code, the process dies on the fatal-exception path, or execution
continues to the next step.  The carried `ConfigState` is the state of
the `PyConfig` at that moment. -/
inductive StepOutcome where
  | exitWith (code : Int) (cfg : ConfigState)
  | fatal (cfg : ConfigState)
  | continued (cfg : ConfigState)
  deriving DecidableEq, Repr

/-- The wrapper `main` places around every configuration step:
`if (PyStatus_Exception(status)) { if (auto ec = MaybeGetExitCode(&status, &config)) return *ec; }`. -/
def handleStatus (s : PyStatus) (cfg : ConfigState) : StepOutcome :=
  if s.kind = .ok then .continued cfg
  else
    match MaybeGetExitCode s cfg with
    | (some code, cfg2, _) => .exitWith code cfg2
    | (none, cfg2, _) => .fatal cfg2

/-- Behaviour of the object bound to the finder module's `_initialize`
attribute, when the attribute exists. -/
inductive AttrKind where
  | notCallable
  | raises
  | callOk
  deriving DecidableEq, Repr

/-- The environment the finder-hook block of `main` runs against: whether
`PyImport_ImportModule("static_extension_finder")` succeeds, and what
`PyObject_GetAttrString(pmodule, ...)` yields (`none`: the attribute is
missing and null is returned). -/
structure FinderEnv where
  moduleExists : Bool
  attr : Option AttrKind
  deriving DecidableEq, Repr

/-- `PyObject_CallObject(p, nullptr)`.  Outer `none`: `p` was a null
pointer and the call dereferenced null (the process crashes).  Otherwise
the call's result: `some none` for a non-callable target (TypeError) or a
call that raised, `some (some ())` for a successful call. -/
def pyCallObject (p : Option AttrKind) : Option (Option Unit) :=
  match p with
  | none => none
  | some .notCallable => some none
  | some .raises => some none
  | some .callOk => some (some ())

/-- `Py_DECREF(p)`: decrementing through a null pointer dereferences
null; `false` means the process crashes. -/
def pyDecref {α : Type} (p : Option α) : Bool := p.isSome

/-- Diagnostics the finder-hook block prints to standard error. -/
inductive StderrMsg where
  | importFailed
  | attrMissing
  | callFailed
  deriving DecidableEq, Repr

/-- How the finder-hook block ends: a null-pointer dereference kills the
process, or execution continues to `Py_RunMain` having printed the given
stderr diagnostics. -/
inductive HookOutcome where
  | crashed
  | continued (log : List StderrMsg)
  deriving DecidableEq, Repr

/-- Lines 160-187 of `embedded_main.cpp`: import
`static_extension_finder`, fetch its `_initialize` attribute and call it
with no arguments.  Each failure prints a diagnostic, and every
`return 1` after a diagnostic is commented out in the source, so control
falls through: after a missing or non-callable attribute the code still
reaches `PyObject_CallObject(pinit, nullptr)`, and after a null call
result it still reaches `Py_DECREF(retvalue)`. -/
def finderHook (env : FinderEnv) : HookOutcome :=
  if env.moduleExists = false then
    -- PyErr_Print(); fprintf(stderr, ...); `// return 1;`
    .continued [.importFailed]
  else
    -- pinit = PyObject_GetAttrString(pmodule, ...); Py_DECREF(pmodule);
    let pinit := env.attr
    let log1 : List StderrMsg :=
      if pinit = none ∨ pinit = some .notCallable then [.attrMissing] else []
    -- retvalue = PyObject_CallObject(pinit, nullptr);
    match pyCallObject pinit with
    | none => .crashed
    | some retvalue =>
      -- Py_DECREF(pinit);  (pinit is non-null here, or the call crashed)
      let log2 : List StderrMsg :=
        if retvalue = none then log1 ++ [.callFailed] else log1
      -- Py_DECREF(retvalue);
      if pyDecref retvalue then .continued log2 else .crashed

/-- How the braced block of `main` around the finder hook ends.  On
`continued`, the fields are `sys.path` after the block's scope guard has
run, `sys.path` as seen by the finder-module import inside the block, and
the stderr diagnostics. -/
inductive BlockOutcome where
  | crashed
  | continued (sysPath : List String) (pathAtImport : List String)
      (log : List StderrMsg)
  deriving DecidableEq, Repr

/-- Lines 134-188 of `embedded_main.cpp`.  `par` is
`getenv("FB_PAR_FILENAME")`.  When set to `p`,
`PyList_Insert(sysPath, 0, ...)` prepends `p` to `sys.path` and the scope
guard pops index 0 when the block exits; when unset the guard is the
empty one.  The finder hook runs in between.  If the hook crashes the
process, the guard never runs. -/
def finderBlock (par : Option String) (env : FinderEnv)
    (sysPath : List String) : BlockOutcome :=
  match par with
  | none =>
    match finderHook env with
    | .crashed => .crashed
    | .continued log => .continued sysPath sysPath log
  | some p =>
    let inserted := p :: sysPath
    match finderHook env with
    | .crashed => .crashed
    | .continued log => .continued inserted.tail inserted log

/-- Selector for init-invocation events in a trace. -/
def isInitEvent : Event → Bool
  | .initCalled _ => true
  | .registryLookup _ => false

/-- Claim C1: for every invocation of `create_module`, whatever branch is
taken and whether it succeeds or fails, the Package-Context slot holds
exactly its pre-call value when the operation returns, and the slot
carries the module name during the (at most one) init-function
invocation. -/
theorem create_module_context_frame (reg : List (String × InitFunc))
    (spec : ModuleSpec) (st : PyState) :
    (create_module reg spec st).2.1.packageContext = st.packageContext ∧
      (∀ ctx, Event.initCalled ctx ∈ (create_module reg spec st).2.2 →
        ctx = spec.name) ∧
      ((create_module reg spec st).2.2.filter isInitEvent).length ≤ 1 := by
  rcases hname : spec.name with _ | nm
  · simp [create_module, hname, isInitEvent]
  rcases hfind : findExtensionObject st nm with _ | mc
  case some => simp [create_module, hname, hfind, isInitEvent]
  rcases herr : st.err with _ | e
  case some => simp [create_module, hname, hfind, herr, isInitEvent]
  by_cases hnm : nm = ""
  · subst hnm
    simp [create_module, hname, hfind, herr, isInitEvent]
  rcases hreg : lookupStr nm reg with _ | f
  · simp [create_module, hname, hfind, herr, hnm, hreg, isInitEvent]
  rcases hb : f.behavior with _ | d | mleg
  · simp [create_module, callInit, hname, hfind, herr, hnm, hreg, hb, isInitEvent]
  · simp [create_module, callInit, pyModuleFromDefAndSpec, hname, hfind, herr,
      hnm, hreg, hb, isInitEvent]
  rcases hmd : mleg.moddef with _ | d
  · simp [create_module, callInit, hname, hfind, herr, hnm, hreg, hb, hmd,
      isInitEvent]
  rcases horig : spec.origin with _ | p <;>
    simp [create_module, callInit, fixupExtensionObject, hname, hfind, herr,
      hnm, hreg, hb, hmd, horig, isInitEvent]

/-- Claim C2: after a first successful `create_module` call has registered
a module in the runtime's extension cache under a name, a second call with
a spec carrying the same name returns the identical cached module object,
leaves the state untouched, and records no event at all — in particular it
does not invoke the registry entry's init function again. -/
theorem create_module_cache_hit_idempotent (reg : List (String × InitFunc))
    (spec1 spec2 : ModuleSpec) (nm : String) (st0 st1 : PyState)
    (m : PyModule) (evs1 : List Event)
    (_hfirst : create_module reg spec1 st0 = (some m, st1, evs1))
    (hcache : findExtensionObject st1 nm = some m)
    (hname : spec2.name = some nm) :
    create_module reg spec2 st1 = (some m, st1, []) := by
  simp [create_module, hname, hcache]

/-- Witness for C2: a concrete first call on a one-entry registry,
followed by the second call on the resulting state. -/
theorem create_module_cache_hit_idempotent_witness :
    create_module
        [("mathx",
          { funcId := 7, behavior := .legacy { modId := 1, moddef := some { defId := 3 } } })]
        { name := some "mathx", origin := some "zzz" }
        { extensions :=
            [("mathx",
              { modId := 1, file := some "mathx", moddef := some { defId := 3, m_init := some 7 } })],
          modules :=
            [("mathx",
              { modId := 1, file := some "mathx", moddef := some { defId := 3, m_init := some 7 } })] } =
      (some { modId := 1, file := some "mathx", moddef := some { defId := 3, m_init := some 7 } },
       { extensions :=
           [("mathx",
             { modId := 1, file := some "mathx", moddef := some { defId := 3, m_init := some 7 } })],
         modules :=
           [("mathx",
             { modId := 1, file := some "mathx", moddef := some { defId := 3, m_init := some 7 } })] },
       []) :=
  create_module_cache_hit_idempotent
    [("mathx",
      { funcId := 7, behavior := .legacy { modId := 1, moddef := some { defId := 3 } } })]
    { name := some "mathx", origin := some "mathx" }
    { name := some "mathx", origin := some "zzz" }
    "mathx" {}
    { extensions :=
        [("mathx",
          { modId := 1, file := some "mathx", moddef := some { defId := 3, m_init := some 7 } })],
      modules :=
        [("mathx",
          { modId := 1, file := some "mathx", moddef := some { defId := 3, m_init := some 7 } })] }
    { modId := 1, file := some "mathx", moddef := some { defId := 3, m_init := some 7 } }
    [.registryLookup "mathx", .initCalled (some "mathx")]
    (by decide) (by decide) rfl

/-- Counterexample to C3 as stated: the empty string is not a key of the
(empty) registry and is not cached, yet `create_module` on a spec whose
name converts to the empty text returns null with NO error set at all
(the `namestr.empty()` early return fires before the registry lookup), so
the failure is not an ImportError. -/
theorem create_module_unknown_counterexample :
    lookupStr "" ([] : List (String × InitFunc)) = none ∧
      findExtensionObject {} "" = none ∧
      create_module [] { name := some "" } {} = (none, {}, []) ∧
      ({} : PyState).err = none := by decide

/-- Claim C3 (amended to non-empty names): for every spec whose name is a
non-empty text that is not a key of the registry and not already cached,
`create_module` fails with the ImportError identifying the module as
unknown to the static loader, and the interpreter state changes only in
the pending-error slot — in particular the Package-Context slot keeps its
pre-call value. -/
theorem create_module_unknown_importerror (reg : List (String × InitFunc))
    (spec : ModuleSpec) (st : PyState) (nm : String)
    (hname : spec.name = some nm) (hne : nm ≠ "")
    (hcache : findExtensionObject st nm = none) (herr : st.err = none)
    (hreg : lookupStr nm reg = none) :
    create_module reg spec st =
      (none,
       { st with err := some (.importError "Module unknown to static extension finder") },
       [.registryLookup nm]) := by
  simp [create_module, hname, hcache, herr, hne, hreg]

/-- Witness for the amended C3: the empty-registry scenario with name
"missing". -/
theorem create_module_unknown_importerror_witness :
    create_module [] { name := some "missing" } {} =
      (none,
       { err := some (.importError "Module unknown to static extension finder") },
       [.registryLookup "missing"]) :=
  create_module_unknown_importerror [] _ {} "missing" rfl (by decide) rfl rfl rfl

/-- Claim C4, evaluated at the failing input: `_exec_module` ignores the
result of `PyModule_ExecDef` (the source says `// TODO check res`), so
when execution of the definition raises, the operation still does
`Py_RETURN_NONE`: a normal `some ()` result with the exception left
pending, not the error return the runtime's exception protocol — and the
claim — require. -/
theorem exec_module_normal_return_despite_exception :
    exec_module
        (.module
          { modId := 0, moddef := some { defId := 0, execRaises := some (.importError "boom") } })
        {} =
      (some (), { err := some (.importError "boom") }) := by decide

/-- Counterexample to C5 as stated: a configuration status carrying exit
code 7 makes the launcher return 7, but `MaybeGetExitCode` takes the
`PyStatus_IsExit` branch before reaching `PyConfig_Clear`, so the
configuration is NOT released on this path (`cleared` stays false). -/
theorem maybeGetExitCode_counterexample :
    handleStatus { kind := .exit, exitcode := 7 } { cleared := false } =
        .exitWith 7 { cleared := false } ∧
      MaybeGetExitCode { kind := .exit, exitcode := 7 } { cleared := false } =
        (some 7, { cleared := false }, false) := by decide

/-- Claim C5 (amended): for every configuration step whose failure status
carries an explicit exit code, the launcher returns that exit code as the
process exit status directly, leaving the configuration state exactly as
it was — resources are released only on the fatal path taken for
exceptional statuses without an exit code. -/
theorem handleStatus_exitcode_direct (s : PyStatus) (cfg : ConfigState)
    (h : s.kind = .exit) :
    handleStatus s cfg = .exitWith s.exitcode cfg := by
  simp [handleStatus, MaybeGetExitCode, h]

/-- Witness for the amended C5 at a concrete exit-carrying status. -/
theorem handleStatus_exitcode_direct_witness :
    handleStatus { kind := .exit, exitcode := 3 } { cleared := true } =
      .exitWith 3 { cleared := true } :=
  handleStatus_exitcode_direct _ _ rfl

/-- Claim C6, evaluated on each failure mode: only the missing-module mode
logs and continues; a missing `_initialize` attribute makes the code call
through the null pointer, and a non-callable attribute or a raising call
makes it `Py_DECREF` the null call result — the commented-out
`return 1` statements let control fall through to these null
dereferences, so the process crashes instead of continuing. -/
theorem finderHook_failure_modes :
    finderHook { moduleExists := true, attr := none } = .crashed ∧
      finderHook { moduleExists := true, attr := some .notCallable } = .crashed ∧
      finderHook { moduleExists := true, attr := some .raises } = .crashed ∧
      finderHook { moduleExists := false, attr := none } =
        .continued [.importFailed] := by decide

/-- Claim C7: whenever the auxiliary-archive variable holds a path `p`,
the finder-module import inside the block sees `p` prepended to the
module search path, and on every exit of the block that reaches the code
after it (normal or error) the scope guard has removed the temporary
entry, restoring the search path to exactly its prior value. -/
theorem finderBlock_restores_sysPath (p : String) (env : FinderEnv)
    (path0 final atImport : List String) (log : List StderrMsg)
    (h : finderBlock (some p) env path0 = .continued final atImport log) :
    atImport = p :: path0 ∧ final = path0 := by
  rcases hh : finderHook env with _ | l
  · simp [finderBlock, hh] at h
  · simp [finderBlock, hh] at h
    obtain ⟨rfl, rfl, rfl⟩ := h
    exact ⟨rfl, rfl⟩

/-- Witness for C7: a concrete run on an error exit path (the finder
module is absent, the failure is logged) with the search path restored. -/
theorem finderBlock_restores_sysPath_witness :
    finderBlock (some "x") { moduleExists := false, attr := none } ["lib"] =
        .continued ["lib"] ["x", "lib"] [.importFailed] ∧
      (["x", "lib"] = "x" :: ["lib"] ∧ ["lib"] = ["lib"]) :=
  ⟨by decide,
   finderBlock_restores_sysPath "x" { moduleExists := false, attr := none }
     ["lib"] ["lib"] ["x", "lib"] [.importFailed] (by decide)⟩

/-- Claim C8: with the registry mapping "mathx" to an init function that
returns a legacy module carrying a definition, `create_module` on a spec
with name and origin "mathx" returns a module whose `__file__` equals
"mathx", whose definition's base-init slot holds that init function's
pointer, and which is retrievable from the module cache under "mathx". -/
theorem create_module_legacy_scenario (fid : Nat) (m : PyModule) (d : ModuleDef)
    (hdef : m.moddef = some d) :
    ∃ mret st2, create_module
        [("mathx", { funcId := fid, behavior := .legacy m })]
        { name := some "mathx", origin := some "mathx" } {} =
        (some mret, st2,
         [.registryLookup "mathx", .initCalled (some "mathx")]) ∧
      mret.file = some "mathx" ∧
      mret.moddef = some { d with m_init := some fid } ∧
      lookupStr "mathx" st2.modules = some mret := by
  refine
    ⟨{ m with file := some "mathx", moddef := some { d with m_init := some fid } },
     { packageContext := none,
       extensions :=
         [("mathx",
           { m with file := some "mathx", moddef := some { d with m_init := some fid } })],
       modules :=
         [("mathx",
           { m with file := some "mathx", moddef := some { d with m_init := some fid } })],
       err := none }, ?_, rfl, rfl, by simp [lookupStr]⟩
  simp [create_module, callInit, fixupExtensionObject, findExtensionObject,
    lookupStr, hdef]

/-- Witness for C8 at a concrete legacy module and definition. -/
theorem create_module_legacy_scenario_witness :
    ({ modId := 1, moddef := some { defId := 3 } } : PyModule).moddef =
        some { defId := 3 } ∧
      (∃ mret st2, create_module
          [("mathx",
            { funcId := 7, behavior := .legacy { modId := 1, moddef := some { defId := 3 } } })]
          { name := some "mathx", origin := some "mathx" } {} =
          (some mret, st2,
           [.registryLookup "mathx", .initCalled (some "mathx")]) ∧
        mret.file = some "mathx" ∧
        mret.moddef = some { defId := 3, m_init := some 7 } ∧
        lookupStr "mathx" st2.modules = some mret) :=
  ⟨rfl, create_module_legacy_scenario 7
    { modId := 1, moddef := some { defId := 3 } } { defId := 3 } rfl⟩

/-- Keys found by `lookupStr` are exactly the keys of the association
list. -/
theorem lookupStr_isSome_iff {α : Type} (s : String) (l : List (String × α)) :
    (lookupStr s l).isSome = true ↔ s ∈ l.map Prod.fst := by
  induction l with
  | nil => simp [lookupStr]
  | cons kv rest ih =>
    obtain ⟨k, v⟩ := kv
    by_cases hk : k = s
    · subst hk
      simp [lookupStr]
    · have hks : ¬s = k := fun hh => hk hh.symm
      simp [lookupStr, hk, hks, ih]

/-- Claim C9: on text input the membership query consults the registry
and answers true exactly when the name is one of its keys, with the state
untouched; on non-text input it fails with a TypeError and records no
registry lookup at all. -/
theorem check_module_membership (reg : List (String × InitFunc)) (st : PyState) :
    (∀ s : String, ∃ b : Bool,
        check_module reg (.str s) st = (some b, st, [.registryLookup s]) ∧
          (b = true ↔ s ∈ reg.map Prod.fst)) ∧
      check_module reg .nonText st =
        (none, { st with err := some (.typeError "Expected a unicode object") }, []) :=
  ⟨fun s => ⟨(lookupStr s reg).isSome, rfl, lookupStr_isSome_iff s reg⟩, rfl⟩

/-- Claim C10: a spec whose name attribute exists but converts to the
empty text, with nothing cached under the empty name and no exception
pending, makes `create_module` return null with the state completely
unchanged — no ImportError or any other error is set — and without
consulting the registry (the trace is empty). -/
theorem create_module_emptyname_silent (reg : List (String × InitFunc))
    (origin : Option String) (st : PyState)
    (herr : st.err = none) (hcache : findExtensionObject st "" = none) :
    create_module reg { name := some "", origin := origin } st = (none, st, []) := by
  simp [create_module, hcache, herr]

/-- Witness for C10 on a non-trivial registry and state. -/
theorem create_module_emptyname_silent_witness :
    create_module [("a", { funcId := 1, behavior := .fails })]
        { name := some "", origin := some "o" }
        { packageContext := some "ctx" } =
      (none, { packageContext := some "ctx" }, []) :=
  create_module_emptyname_silent _ _ _ rfl rfl
